import Mathlib

/-!
Shallow embedding of the workflow-dashboard state logic of
`pydra/engine/dashboard_server.py` and `pydra/engine/dashboard.py`.

The embedded operations are:
* `update_workflow` — the push-update entry point (`DashboardServer.update_workflow`),
  which stamps `start_time` / `end_time` onto the payload depending on its `status`
  field and then writes the payload as the JSON snapshot file for the workflow id;
* `load_workflow_data` — the directory scan (`DashboardServer.load_workflow_data`),
  which parses each `*.json` file in the data directory and stores the parsed value
  into the in-memory `workflows` map keyed by the file stem;
* the DAG node-color maps of `DashboardServer.start.update_dag` (five-entry palette,
  `dict.get` with default `gray`) and of `Dashboard.create_dag_plot` /
  `Dashboard.update_document` (four-entry palette, plain `dict[...]` indexing).

JSON values are modelled by the inductive `Json`; a snapshot file's content is either
a parseable JSON value (`FileContent.valid`) or malformed text (`FileContent.malformed`):
`json.dump` always writes a `valid` content that parses back to the dumped value, and
`json.load` on a `malformed` content raises. Python dictionaries are modelled as
association lists whose assignment `d[k] = v` (`setEntry`) replaces an existing
binding in place or appends a new one. Raised exceptions are modelled by an
`Option String` error component alongside the (partially mutated) state, since the
Python objects keep every mutation performed before the raise.
-/

/-- A JSON value, as produced by Python's `json` module (numbers restricted to
integers, which covers every value the dashboard code manipulates). -/
inductive Json where
  | null : Json
  | bool : Bool → Json
  | num : Int → Json
  | str : String → Json
  | arr : List Json → Json
  | obj : List (String × Json) → Json

mutual

/-- Decidable equality of JSON values. -/
def Json.decEq : (a b : Json) → Decidable (a = b)
  | .null, .null => .isTrue rfl
  | .bool x, .bool y =>
    match instDecidableEqBool x y with
    | .isTrue h => .isTrue (h ▸ rfl)
    | .isFalse h => .isFalse fun c => h (Json.bool.inj c)
  | .num x, .num y =>
    match Int.instDecidableEq x y with
    | .isTrue h => .isTrue (h ▸ rfl)
    | .isFalse h => .isFalse fun c => h (Json.num.inj c)
  | .str x, .str y =>
    match instDecidableEqString x y with
    | .isTrue h => .isTrue (h ▸ rfl)
    | .isFalse h => .isFalse fun c => h (Json.str.inj c)
  | .arr xs, .arr ys =>
    match Json.decEqList xs ys with
    | .isTrue h => .isTrue (h ▸ rfl)
    | .isFalse h => .isFalse fun c => h (Json.arr.inj c)
  | .obj fs, .obj gs =>
    match Json.decEqFields fs gs with
    | .isTrue h => .isTrue (h ▸ rfl)
    | .isFalse h => .isFalse fun c => h (Json.obj.inj c)
  | .null, .bool _ | .null, .num _ | .null, .str _ | .null, .arr _ | .null, .obj _
  | .bool _, .null | .bool _, .num _ | .bool _, .str _ | .bool _, .arr _ | .bool _, .obj _
  | .num _, .null | .num _, .bool _ | .num _, .str _ | .num _, .arr _ | .num _, .obj _
  | .str _, .null | .str _, .bool _ | .str _, .num _ | .str _, .arr _ | .str _, .obj _
  | .arr _, .null | .arr _, .bool _ | .arr _, .num _ | .arr _, .str _ | .arr _, .obj _
  | .obj _, .null | .obj _, .bool _ | .obj _, .num _ | .obj _, .str _ | .obj _, .arr _ =>
    .isFalse nofun

/-- Decidable equality of JSON value lists. -/
def Json.decEqList : (xs ys : List Json) → Decidable (xs = ys)
  | [], [] => .isTrue rfl
  | [], _ :: _ => .isFalse nofun
  | _ :: _, [] => .isFalse nofun
  | x :: xs, y :: ys =>
    match Json.decEq x y with
    | .isFalse h => .isFalse fun c => h (List.cons.inj c).1
    | .isTrue h1 =>
      match Json.decEqList xs ys with
      | .isTrue h2 => .isTrue (by rw [h1, h2])
      | .isFalse h2 => .isFalse fun c => h2 (List.cons.inj c).2

/-- Decidable equality of JSON object field lists. -/
def Json.decEqFields : (fs gs : List (String × Json)) → Decidable (fs = gs)
  | [], [] => .isTrue rfl
  | [], _ :: _ => .isFalse nofun
  | _ :: _, [] => .isFalse nofun
  | (k, v) :: fs, (l, w) :: gs =>
    match instDecidableEqString k l with
    | .isFalse h => .isFalse fun c => h (congrArg Prod.fst (List.cons.inj c).1)
    | .isTrue h0 =>
      match Json.decEq v w with
      | .isFalse h => .isFalse fun c => h (congrArg Prod.snd (List.cons.inj c).1)
      | .isTrue h1 =>
        match Json.decEqFields fs gs with
        | .isTrue h2 => .isTrue (by rw [h0, h1, h2])
        | .isFalse h2 => .isFalse fun c => h2 (List.cons.inj c).2

end

instance : DecidableEq Json := Json.decEq

/-- Python dict assignment `d[k] = v` on an association list: replace the binding
for `k` in place if present, otherwise append it. -/
def setEntry {α : Type} : List (String × α) → String → α → List (String × α)
  | [], k, v => [(k, v)]
  | (k0, v0) :: rest, k, v =>
    if k0 = k then (k, v) :: rest else (k0, v0) :: setEntry rest k v

/-- Python dict lookup `d.get(k)` on an association list. -/
def lookupEntry {α : Type} : List (String × α) → String → Option α
  | [], _ => none
  | (k0, v0) :: rest, k => if k0 = k then some v0 else lookupEntry rest k

/-- `data[k]` on a JSON object (`None` when the key is absent or the value is
not an object, the situations where Python raises). -/
def Json.getKey : Json → String → Option Json
  | Json.obj fields, k => lookupEntry fields k
  | _, _ => none

/-- `data[k] = v` on a JSON object (identity on non-objects, which the
dashboard never mutates). -/
def Json.setKey : Json → String → Json → Json
  | Json.obj fields, k, v => Json.obj (setEntry fields k v)
  | j, _, _ => j

/-- Python `data['status'] == s`: true exactly when the value is the string `s`. -/
def jsonEqStr (v : Json) (s : String) : Bool :=
  match v with
  | Json.str t => t = s
  | _ => false

/-- The content of one snapshot file in the data directory: either text that
parses as JSON, or malformed text on which `json.load` raises. -/
inductive FileContent where
  | valid : Json → FileContent
  | malformed : FileContent
deriving DecidableEq

/-- The state of a `DashboardServer` that the claims are about: the snapshot
files of `data_dir` keyed by filename stem, in scan (glob) order, and the
in-memory `workflows` map. -/
structure DashState where
  files : List (String × FileContent)
  workflows : List (String × Json)
deriving DecidableEq

/-- The timestamp stamping of `DashboardServer.update_workflow` (lines 156-159):
`if data['status'] == 'started': data['start_time'] = now` /
`elif data['status'] in ['completed', 'failed']: data['end_time'] = now`.
Clock readings are modelled as integers (ISO timestamps are ordered strings). -/
def applyTimestamps (data : Json) (now : Int) : Json :=
  match Json.getKey data "status" with
  | some st =>
    if jsonEqStr st "started" then Json.setKey data "start_time" (Json.num now)
    else if jsonEqStr st "completed" || jsonEqStr st "failed" then
      Json.setKey data "end_time" (Json.num now)
    else data
  | none => data

/-- `DashboardServer.update_workflow(workflow_id, data)` (lines 153-163):
reads `data['status']` (raising `KeyError` when absent — second component
`some err`), stamps the timestamp fields, and writes the payload as the file
`data_dir/<workflow_id>.json`, replacing any previous content. The in-memory
`workflows` map is not touched. -/
def update_workflow (s : DashState) (wid : String) (data : Json) (now : Int) :
    DashState × Option String :=
  match Json.getKey data "status" with
  | none => (s, some "KeyError")
  | some _ =>
    (⟨setEntry s.files wid (FileContent.valid (applyTimestamps data now)), s.workflows⟩,
     none)

/-- The scan loop of `DashboardServer.load_workflow_data` (lines 167-170):
for each file in order, `json.load` it and assign `self.workflows[stem] = data`.
A malformed file makes `json.load` raise, which aborts the loop; the `workflows`
entries assigned before the raise are kept. Returns the final map and whether
the scan raised. -/
def loadScan : List (String × FileContent) → List (String × Json) →
    List (String × Json) × Bool
  | [], ws => (ws, false)
  | (stem, FileContent.valid j) :: rest, ws => loadScan rest (setEntry ws stem j)
  | (_, FileContent.malformed) :: _, ws => (ws, true)

/-- `DashboardServer.load_workflow_data()` (lines 165-171): run the scan loop
over the data directory; the `Bool` records whether a `json.load` raised. -/
def load_workflow_data (s : DashState) : DashState × Bool :=
  (⟨s.files, (loadScan s.files s.workflows).1⟩, (loadScan s.files s.workflows).2)

/-- The palette of `update_dag` in `dashboard_server.py` line 83. -/
def server_color_map : List (String × String) :=
  [("waiting", "gray"), ("running", "yellow"), ("completed", "green"),
   ("failed", "red"), ("unknown", "blue")]

/-- Python `dict.get(k, default)`. -/
def dict_get (m : List (String × String)) (k : String) (default : String) : String :=
  match lookupEntry m k with
  | some v => v
  | none => default

/-- The node fill color computed per task by `update_dag` in
`dashboard_server.py` line 84: `color_map.get(task['status'], 'gray')`. -/
def update_dag_color (status : String) : String :=
  dict_get server_color_map status "gray"

/-- The palette of `Dashboard.create_dag_plot` (`dashboard.py` line 76) and of
`Dashboard.update_document` (line 162): no entry for `unknown`. -/
def dashboard_color_map : List (String × String) :=
  [("waiting", "gray"), ("running", "yellow"), ("completed", "green"),
   ("failed", "red")]

/-- The node fill color computed by `Dashboard.create_dag_plot` line 77:
`color_map[self.task_status[task.name]]` — plain indexing, so a status outside
the palette yields no color (Python raises `KeyError`). -/
def create_dag_plot_color (status : String) : Option String :=
  lookupEntry dashboard_color_map status

/-- The node fill color computed by `Dashboard.update_document` line 163:
same four-entry palette with plain indexing. -/
def update_document_color (status : String) : Option String :=
  lookupEntry dashboard_color_map status

/-! ### Association-list and scan lemmas -/

theorem lookup_setEntry_self {α : Type} (m : List (String × α)) (k : String) (v : α) :
    lookupEntry (setEntry m k v) k = some v := by
  induction m with
  | nil => simp [setEntry, lookupEntry]
  | cons e rest ih =>
    obtain ⟨k0, v0⟩ := e
    by_cases h : k0 = k
    · simp [setEntry, h, lookupEntry]
    · simp [setEntry, h, lookupEntry, ih]

theorem lookup_setEntry_ne {α : Type} (m : List (String × α)) (k k' : String) (v : α)
    (h : k ≠ k') : lookupEntry (setEntry m k v) k' = lookupEntry m k' := by
  induction m with
  | nil => simp [setEntry, lookupEntry, h]
  | cons e rest ih =>
    obtain ⟨k0, v0⟩ := e
    by_cases h0 : k0 = k
    · subst h0
      simp [setEntry, lookupEntry, h]
    · simp [setEntry, h0, lookupEntry, ih]

theorem setEntry_setEntry_self {α : Type} (m : List (String × α)) (k : String) (v w : α) :
    setEntry (setEntry m k v) k w = setEntry m k w := by
  induction m with
  | nil => simp [setEntry]
  | cons e rest ih =>
    obtain ⟨k0, v0⟩ := e
    by_cases h0 : k0 = k
    · simp [setEntry, h0]
    · simp [setEntry, h0, ih]

/-- A scan only writes `workflows` keys that are stems of scanned files. -/
theorem loadScan_lookup_not_mem :
    ∀ (files : List (String × FileContent)) (ws : List (String × Json)) (k : String),
    k ∉ files.map Prod.fst → lookupEntry (loadScan files ws).1 k = lookupEntry ws k
  | [], _, _, _ => rfl
  | (stem, FileContent.valid j) :: rest, ws, k, h => by
    have h' : k ∉ rest.map Prod.fst ∧ k ≠ stem := by
      simp only [List.map_cons, List.mem_cons, not_or] at h
      exact ⟨h.2, h.1⟩
    show lookupEntry (loadScan rest (setEntry ws stem j)).1 k = lookupEntry ws k
    rw [loadScan_lookup_not_mem rest (setEntry ws stem j) k h'.1,
      lookup_setEntry_ne ws stem k j (Ne.symm h'.2)]
  | (_, FileContent.malformed) :: _, _, _, _ => rfl

/-- A scan over a directory whose files all parse does not raise. -/
theorem loadScan_no_raise :
    ∀ (files : List (String × FileContent)) (ws : List (String × Json)),
    (∀ e ∈ files, e.2 ≠ FileContent.malformed) → (loadScan files ws).2 = false
  | [], _, _ => rfl
  | (stem, FileContent.valid j) :: rest, ws, h =>
    loadScan_no_raise rest (setEntry ws stem j) fun e he => h e (List.mem_cons_of_mem _ he)
  | (stem, FileContent.malformed) :: _, _, h =>
    absurd rfl (h (stem, FileContent.malformed) (List.mem_cons_self _ _))

/-- A scan that hits a malformed file stops there: the result is the map produced
by the files before it, and the raised flag. -/
theorem loadScan_append_malformed :
    ∀ (pre : List (String × FileContent)) (stem : String)
      (post : List (String × FileContent)) (ws : List (String × Json)),
    (∀ e ∈ pre, e.2 ≠ FileContent.malformed) →
    loadScan (pre ++ (stem, FileContent.malformed) :: post) ws = ((loadScan pre ws).1, true)
  | [], _, _, _, _ => rfl
  | (st0, FileContent.valid j) :: rest, stem, post, ws, hpre =>
    loadScan_append_malformed rest stem post (setEntry ws st0 j)
      fun e he => hpre e (List.mem_cons_of_mem _ he)
  | (st0, FileContent.malformed) :: _, _, _, _, hpre =>
    absurd rfl (hpre (st0, FileContent.malformed) (List.mem_cons_self _ _))

/-! ### C1 — malformed snapshot files during a scan -/

/-- C1 counterexample: a directory whose scan order is the malformed `wf3.json`
followed by the valid `wf4.json`. The scan raises (`.2 = true`) — the malformed
file is not skipped — and the valid `wf4.json` is not loaded into the
workflows map, refuting the claim that the scan completes without raising and
that every other valid file still loads. -/
theorem c1_malformed_aborts_scan_cex :
    (load_workflow_data ⟨[("wf3", FileContent.malformed),
        ("wf4", FileContent.valid (Json.obj [("name", Json.str "w")]))], []⟩).2 = true ∧
    lookupEntry (load_workflow_data ⟨[("wf3", FileContent.malformed),
        ("wf4", FileContent.valid (Json.obj [("name", Json.str "w")]))], []⟩).1.workflows
      "wf4" = none :=
  ⟨rfl, rfl⟩

/-- C1 amended: `load_workflow_data` has no exception handling, so a file with
malformed JSON makes the scan raise; the files before it in scan order have
been loaded into the workflows map, and the malformed file and every file
after it are not loaded. -/
theorem c1_scan_aborts_on_malformed (s : DashState) (pre post : List (String × FileContent))
    (stem : String)
    (hfiles : s.files = pre ++ (stem, FileContent.malformed) :: post)
    (hpre : ∀ e ∈ pre, e.2 ≠ FileContent.malformed) :
    (load_workflow_data s).2 = true ∧
    (load_workflow_data s).1.workflows = (loadScan pre s.workflows).1 := by
  unfold load_workflow_data
  rw [hfiles, loadScan_append_malformed pre stem post s.workflows hpre]
  exact ⟨rfl, rfl⟩

/-- C1 witness: the amended theorem at a concrete directory `wf1.json` (valid),
`wf3.json` (malformed), `wf4.json` (valid): the scan raises having loaded
exactly `wf1`. -/
theorem c1_scan_aborts_witness :
    (load_workflow_data ⟨[("wf1", FileContent.valid (Json.obj [])),
        ("wf3", FileContent.malformed),
        ("wf4", FileContent.valid (Json.obj []))], []⟩).2 = true ∧
    (load_workflow_data ⟨[("wf1", FileContent.valid (Json.obj [])),
        ("wf3", FileContent.malformed),
        ("wf4", FileContent.valid (Json.obj []))], []⟩).1.workflows =
      (loadScan [("wf1", FileContent.valid (Json.obj []))] []).1 :=
  c1_scan_aborts_on_malformed
    ⟨[("wf1", FileContent.valid (Json.obj [])), ("wf3", FileContent.malformed),
      ("wf4", FileContent.valid (Json.obj []))], []⟩
    [("wf1", FileContent.valid (Json.obj []))]
    [("wf4", FileContent.valid (Json.obj []))] "wf3" rfl (by decide)

/-! ### C2 — update_workflow does not merge -/

/-- C2 counterexample: the stored snapshot for `wf1` has fields `status` and
`name`; the update payload specifies only `status`. After
`update_workflow`, the stored record is exactly the payload — the `name`
field kept no previous value, it is gone — refuting the merge claim. -/
theorem c2_no_merge_cex :
    lookupEntry (update_workflow ⟨[("wf1", FileContent.valid (Json.obj
        [("status", Json.str "queued"), ("name", Json.str "my_wf")]))], []⟩
      "wf1" (Json.obj [("status", Json.str "running")]) 5).1.files "wf1" =
      some (FileContent.valid (Json.obj [("status", Json.str "running")])) ∧
    Json.getKey (Json.obj [("status", Json.str "running")]) "name" = none :=
  ⟨rfl, rfl⟩

/-- C2 amended: `update_workflow` does not merge — it overwrites the stored
snapshot for the workflow id with the (timestamp-stamped) payload alone,
independently of any previously stored fields, and leaves the in-memory
workflows map untouched. -/
theorem c2_update_replaces_snapshot (s : DashState) (wid : String) (data st : Json)
    (now : Int) (h : Json.getKey data "status" = some st) :
    lookupEntry (update_workflow s wid data now).1.files wid =
      some (FileContent.valid (applyTimestamps data now)) ∧
    (update_workflow s wid data now).1.workflows = s.workflows := by
  unfold update_workflow
  rw [h]
  exact ⟨lookup_setEntry_self s.files wid _, rfl⟩

/-- C2 witness: the amended theorem at a concrete stored record and payload. -/
theorem c2_update_replaces_witness :
    lookupEntry (update_workflow ⟨[("wf1", FileContent.valid (Json.obj
        [("status", Json.str "queued"), ("name", Json.str "my_wf")]))], []⟩
      "wf1" (Json.obj [("status", Json.str "running")]) 5).1.files "wf1" =
      some (FileContent.valid (applyTimestamps (Json.obj [("status", Json.str "running")]) 5)) ∧
    (update_workflow ⟨[("wf1", FileContent.valid (Json.obj
        [("status", Json.str "queued"), ("name", Json.str "my_wf")]))], []⟩
      "wf1" (Json.obj [("status", Json.str "running")]) 5).1.workflows = [] :=
  c2_update_replaces_snapshot
    ⟨[("wf1", FileContent.valid (Json.obj
      [("status", Json.str "queued"), ("name", Json.str "my_wf")]))], []⟩
    "wf1" (Json.obj [("status", Json.str "running")]) (Json.str "running") 5 rfl

/-! ### C3 — started-then-completed push scenario -/

/-- The first payload of the C3 scenario. -/
def c3_payload_started : Json :=
  Json.obj [("status", Json.str "started"), ("tasks", Json.arr [])]

/-- The second payload of the C3 scenario. -/
def c3_payload_completed : Json :=
  Json.obj [("status", Json.str "completed"), ("tasks", Json.arr [])]

/-- The C3 scenario: from an empty store, push the `started` update at clock
`t1`, push the `completed` update at clock `t2`, then load the snapshots. -/
def c3_run (t1 t2 : Int) : DashState :=
  (load_workflow_data
    (update_workflow (update_workflow ⟨[], []⟩ "wf2" c3_payload_started t1).1
      "wf2" c3_payload_completed t2).1).1

/-- C3 counterexample: at clocks 1 and 2, the record for `wf2` loaded after the
two pushes has no `start_time` at all (the second write replaced the whole
snapshot), refuting the claim that both timestamps are set. -/
theorem c3_start_time_lost_cex :
    Json.getKey ((lookupEntry (c3_run 1 2).workflows "wf2").getD Json.null) "start_time" =
      none ∧
    Json.getKey ((lookupEntry (c3_run 1 2).workflows "wf2").getD Json.null) "end_time" =
      some (Json.num 2) :=
  ⟨rfl, rfl⟩

/-- C3 amended: after the `started` push and then the `completed` push, the
record loaded for `wf2` is exactly the second payload stamped with
`end_time = t2`; `start_time` set by the first push was lost when the second
push replaced the snapshot file. -/
theorem c3_second_update_drops_start_time (t1 t2 : Int) :
    lookupEntry (c3_run t1 t2).workflows "wf2" =
      some (Json.obj [("status", Json.str "completed"), ("tasks", Json.arr []),
        ("end_time", Json.num t2)]) :=
  rfl

/-! ### C4 — timestamp stamping rules -/

/-- C4 counterexample: the stored snapshot for `wf1` contains
`start_time = 1`; an update whose payload has the non-special status
`"running"` (which should leave both timestamp fields untouched) leaves a
stored record with no `start_time` — the full-replacement write dropped it. -/
theorem c4_timestamps_clobbered_cex :
    lookupEntry (update_workflow ⟨[("wf1", FileContent.valid (Json.obj
        [("status", Json.str "started"), ("start_time", Json.num 1)]))], []⟩
      "wf1" (Json.obj [("status", Json.str "running")]) 2).1.files "wf1" =
      some (FileContent.valid (Json.obj [("status", Json.str "running")])) ∧
    Json.getKey (Json.obj [("status", Json.str "running")]) "start_time" = none :=
  ⟨rfl, rfl⟩

/-- `data['status'] == s` holds exactly when the status value is the string `s`. -/
theorem jsonEqStr_eq_true_iff (v : Json) (s : String) :
    jsonEqStr v s = true ↔ v = Json.str s := by
  cases v <;> simp [jsonEqStr]

/-- C4 amended: `update_workflow` writes exactly the stamped payload
`applyTimestamps data now` as the stored record; the stamping adds
`start_time = now` iff the payload status is `"started"` and `end_time = now`
iff it is `"completed"` or `"failed"`, and adds nothing for any other status —
but because the write replaces the whole snapshot, timestamp fields of the
previously stored record survive only if the payload itself carries them. -/
theorem c4_timestamp_stamping (s : DashState) (wid : String) (data st : Json) (now : Int)
    (h : Json.getKey data "status" = some st) :
    lookupEntry (update_workflow s wid data now).1.files wid =
      some (FileContent.valid (applyTimestamps data now)) ∧
    (st = Json.str "started" →
      applyTimestamps data now = Json.setKey data "start_time" (Json.num now)) ∧
    (st = Json.str "completed" ∨ st = Json.str "failed" →
      applyTimestamps data now = Json.setKey data "end_time" (Json.num now)) ∧
    (st ≠ Json.str "started" → st ≠ Json.str "completed" → st ≠ Json.str "failed" →
      applyTimestamps data now = data) := by
  refine ⟨?_, ?_, ?_, ?_⟩
  · unfold update_workflow
    rw [h]
    exact lookup_setEntry_self s.files wid _
  · intro h1
    subst h1
    simp [applyTimestamps, h, jsonEqStr]
  · intro h1
    rcases h1 with h1 | h1 <;> subst h1 <;> simp [applyTimestamps, h, jsonEqStr]
  · intro h1 h2 h3
    have e1 : jsonEqStr st "started" = false :=
      Bool.eq_false_iff.mpr fun hh => h1 ((jsonEqStr_eq_true_iff st "started").1 hh)
    have e2 : jsonEqStr st "completed" = false :=
      Bool.eq_false_iff.mpr fun hh => h2 ((jsonEqStr_eq_true_iff st "completed").1 hh)
    have e3 : jsonEqStr st "failed" = false :=
      Bool.eq_false_iff.mpr fun hh => h3 ((jsonEqStr_eq_true_iff st "failed").1 hh)
    simp [applyTimestamps, h, e1, e2, e3]

/-- C4 witness: the amended theorem at a terminal payload
`{"status": "failed"}` and clock 9: the stamping adds `end_time = 9`. -/
theorem c4_timestamp_stamping_witness :
    applyTimestamps (Json.obj [("status", Json.str "failed")]) 9 =
      Json.setKey (Json.obj [("status", Json.str "failed")]) "end_time" (Json.num 9) :=
  (c4_timestamp_stamping ⟨[], []⟩ "wf" (Json.obj [("status", Json.str "failed")])
    (Json.str "failed") 9 rfl).2.2.1 (Or.inr rfl)

/-! ### C5 — repeating a terminal update -/

/-- The terminal payload used in the C5 scenario. -/
def c5_payload : Json := Json.obj [("status", Json.str "completed")]

/-- C5 counterexample: pushing the same `completed` payload at clock 1 and then
again at clock 2 leaves `end_time = 2`, while the first push alone had stored
`end_time = 1`: the second application changed the stored `end_time`,
refuting idempotence. -/
theorem c5_end_time_overwritten_cex :
    lookupEntry (update_workflow (update_workflow ⟨[], []⟩ "wf" c5_payload 1).1
        "wf" c5_payload 2).1.files "wf" =
      some (FileContent.valid (Json.obj [("status", Json.str "completed"),
        ("end_time", Json.num 2)])) ∧
    lookupEntry (update_workflow ⟨[], []⟩ "wf" c5_payload 1).1.files "wf" =
      some (FileContent.valid (Json.obj [("status", Json.str "completed"),
        ("end_time", Json.num 1)])) ∧
    Json.num 2 ≠ Json.num 1 :=
  ⟨rfl, rfl, by decide⟩

/-- C5 amended: applying the same terminal update twice stores
`end_time = t2`, the clock reading of the second call — the second
application overwrites the first `end_time` — and the double update collapses
to a single one exactly when both calls read the same clock value (so the
operation is idempotent only under a frozen clock). -/
theorem c5_terminal_update_overwrites_end_time (s : DashState) (wid : String)
    (data st : Json) (t1 t2 : Int) (h : Json.getKey data "status" = some st)
    (hterm : st = Json.str "completed" ∨ st = Json.str "failed") :
    lookupEntry (update_workflow (update_workflow s wid data t1).1
        wid data t2).1.files wid =
      some (FileContent.valid (Json.setKey data "end_time" (Json.num t2))) ∧
    (t1 = t2 →
      (update_workflow (update_workflow s wid data t1).1 wid data t2).1 =
        (update_workflow s wid data t1).1) := by
  have hts : ∀ t : Int, applyTimestamps data t = Json.setKey data "end_time" (Json.num t) := by
    intro t
    rcases hterm with h2 | h2 <;> subst h2 <;> simp [applyTimestamps, h, jsonEqStr]
  constructor
  · unfold update_workflow
    rw [h]
    simp only [hts]
    exact lookup_setEntry_self _ wid _
  · rintro rfl
    unfold update_workflow
    rw [h]
    simp only [hts]
    exact congrArg (fun f => DashState.mk f s.workflows)
      (setEntry_setEntry_self s.files wid _ _)

/-- C5 witness: the amended theorem for the `completed` payload pushed twice
at the same clock reading 4. -/
theorem c5_terminal_update_overwrites_witness :
    lookupEntry (update_workflow (update_workflow ⟨[], []⟩ "wf" c5_payload 4).1
        "wf" c5_payload 4).1.files "wf" =
      some (FileContent.valid (Json.setKey c5_payload "end_time" (Json.num 4))) :=
  (c5_terminal_update_overwrites_end_time ⟨[], []⟩ "wf" c5_payload
    (Json.str "completed") 4 4 rfl (Or.inl rfl)).1

/-! ### C6 — where the side effects of update_workflow live -/

/-- C6 counterexample: a successful `update_workflow` call on an empty state
changes the data directory — it writes the snapshot file `wf.json` to disk —
and leaves the in-memory workflows map exactly as it was, refuting the claim
that its side effects are confined to the in-memory map with no disk writes. -/
theorem c6_update_writes_disk_cex :
    (update_workflow ⟨[], []⟩ "wf" (Json.obj [("status", Json.str "queued")]) 0).1.files ≠
      [] ∧
    (update_workflow ⟨[], []⟩ "wf" (Json.obj [("status", Json.str "queued")]) 0).1.files =
      [("wf", FileContent.valid (Json.obj [("status", Json.str "queued")]))] ∧
    (update_workflow ⟨[], []⟩ "wf" (Json.obj [("status", Json.str "queued")]) 0).1.workflows =
      [] :=
  ⟨by decide, rfl, rfl⟩

/-- C6 amended: a successful `update_workflow` call confines its side effects
to the on-disk snapshot file of the given workflow id: the in-memory
workflows map is unchanged and every other file of the data directory reads
back exactly as before. -/
theorem c6_update_effects_confined (s : DashState) (wid : String) (data : Json)
    (now : Int) (h : (update_workflow s wid data now).2 = none) :
    (update_workflow s wid data now).1.workflows = s.workflows ∧
    ∀ k, k ≠ wid →
      lookupEntry (update_workflow s wid data now).1.files k = lookupEntry s.files k := by
  unfold update_workflow at *
  cases hg : Json.getKey data "status" with
  | none =>
    rw [hg] at h
    exact absurd h (by simp)
  | some st =>
    exact ⟨rfl, fun k hk =>
      lookup_setEntry_ne s.files wid k (FileContent.valid (applyTimestamps data now))
        (Ne.symm hk)⟩

/-- C6 witness: the amended theorem at a state holding an unrelated snapshot
`other.json`, which reads back unchanged after updating `wf`. -/
theorem c6_update_effects_confined_witness :
    (update_workflow ⟨[("other", FileContent.valid Json.null)], [("w", Json.null)]⟩
      "wf" (Json.obj [("status", Json.str "queued")]) 0).1.workflows =
      [("w", Json.null)] ∧
    lookupEntry (update_workflow ⟨[("other", FileContent.valid Json.null)],
        [("w", Json.null)]⟩
      "wf" (Json.obj [("status", Json.str "queued")]) 0).1.files "other" =
      lookupEntry [("other", FileContent.valid Json.null)] "other" :=
  ⟨(c6_update_effects_confined ⟨[("other", FileContent.valid Json.null)], [("w", Json.null)]⟩
      "wf" (Json.obj [("status", Json.str "queued")]) 0 rfl).1,
   (c6_update_effects_confined ⟨[("other", FileContent.valid Json.null)], [("w", Json.null)]⟩
      "wf" (Json.obj [("status", Json.str "queued")]) 0 rfl).2 "other" (by decide)⟩

/-! ### C7 — the status color palettes of the two dashboards -/

/-- C7 counterexample: in `Dashboard` (`dashboard.py`), both the initial DAG
plot and the periodic refresh look colors up in a four-entry palette with no
`unknown` entry and plain indexing: a task with status `"unknown"` yields no
color (a `KeyError`), not blue, refuting the claim for that dashboard. -/
theorem c7_unknown_not_blue_in_dashboard_cex :
    create_dag_plot_color "unknown" = none ∧ update_document_color "unknown" = none :=
  ⟨rfl, rfl⟩

/-- C7 amended: `DashboardServer.update_dag` maps all five statuses by the
palette waiting→gray, running→yellow, completed→green, failed→red,
unknown→blue; `Dashboard.create_dag_plot` and `Dashboard.update_document`
agree on the first four statuses but have no entry for `unknown`, whose
lookup fails instead of giving blue. -/
theorem c7_palette_agreement :
    update_dag_color "waiting" = "gray" ∧ update_dag_color "running" = "yellow" ∧
    update_dag_color "completed" = "green" ∧ update_dag_color "failed" = "red" ∧
    update_dag_color "unknown" = "blue" ∧
    create_dag_plot_color "waiting" = some "gray" ∧
    create_dag_plot_color "running" = some "yellow" ∧
    create_dag_plot_color "completed" = some "green" ∧
    create_dag_plot_color "failed" = some "red" ∧
    create_dag_plot_color "unknown" = none ∧
    update_document_color "waiting" = some "gray" ∧
    update_document_color "running" = some "yellow" ∧
    update_document_color "completed" = some "green" ∧
    update_document_color "failed" = some "red" ∧
    update_document_color "unknown" = none := by
  decide

/-! ### C8 — load/read-back round trip -/

/-- Looking up a loaded stem after a fully valid scan returns the parsed
content of that stem's file. -/
theorem loadScan_lookup (files : List (String × FileContent)) :
    ∀ (ws : List (String × Json)) (stem : String) (j : Json),
    (files.map Prod.fst).Nodup →
    (∀ e ∈ files, e.2 ≠ FileContent.malformed) →
    lookupEntry files stem = some (FileContent.valid j) →
    lookupEntry (loadScan files ws).1 stem = some j := by
  induction files with
  | nil =>
    intro ws stem j _ _ hfile
    simp [lookupEntry] at hfile
  | cons e rest ih =>
    intro ws stem j hnd hvalid hfile
    obtain ⟨k, c⟩ := e
    cases c with
    | malformed =>
      exact absurd rfl (hvalid (k, FileContent.malformed) (List.mem_cons_self _ _))
    | valid v =>
      by_cases hk : k = stem
      · subst hk
        have hv : v = j := by
          simp [lookupEntry] at hfile
          exact hfile
        subst hv
        have hmem : k ∉ rest.map Prod.fst := by
          simp only [List.map_cons, List.nodup_cons] at hnd
          exact hnd.1
        show lookupEntry (loadScan rest (setEntry ws k v)).1 k = some v
        rw [loadScan_lookup_not_mem rest (setEntry ws k v) k hmem, lookup_setEntry_self]
      · have hfile' : lookupEntry rest stem = some (FileContent.valid j) := by
          simpa [lookupEntry, hk] using hfile
        have hnd' : (rest.map Prod.fst).Nodup := by
          simp only [List.map_cons, List.nodup_cons] at hnd
          exact hnd.2
        exact ih (setEntry ws k v) stem j hnd'
          (fun e he => hvalid e (List.mem_cons_of_mem _ he)) hfile'

/-- C8 confirmed: over a data directory with distinct stems whose files all
parse, `load_workflow_data` completes without raising and the workflow keyed
by a file's stem reads back as exactly the payload that file holds. -/
theorem c8_load_round_trip (s : DashState) (stem : String) (j : Json)
    (hnd : (s.files.map Prod.fst).Nodup)
    (hvalid : ∀ e ∈ s.files, e.2 ≠ FileContent.malformed)
    (hfile : lookupEntry s.files stem = some (FileContent.valid j)) :
    (load_workflow_data s).2 = false ∧
    lookupEntry (load_workflow_data s).1.workflows stem = some j :=
  ⟨loadScan_no_raise s.files s.workflows hvalid,
   loadScan_lookup s.files s.workflows stem j hnd hvalid hfile⟩

/-- C8 witness: the round trip at a concrete one-file directory holding the
snapshot of `wf1`. -/
theorem c8_load_round_trip_witness :
    (load_workflow_data ⟨[("wf1", FileContent.valid (Json.obj [("name", Json.str "w"),
        ("status", Json.str "running"), ("tasks", Json.arr [])]))], []⟩).2 = false ∧
    lookupEntry (load_workflow_data ⟨[("wf1", FileContent.valid (Json.obj
        [("name", Json.str "w"), ("status", Json.str "running"),
         ("tasks", Json.arr [])]))], []⟩).1.workflows "wf1" =
      some (Json.obj [("name", Json.str "w"), ("status", Json.str "running"),
        ("tasks", Json.arr [])]) :=
  c8_load_round_trip
    ⟨[("wf1", FileContent.valid (Json.obj [("name", Json.str "w"),
      ("status", Json.str "running"), ("tasks", Json.arr [])]))], []⟩
    "wf1"
    (Json.obj [("name", Json.str "w"), ("status", Json.str "running"),
      ("tasks", Json.arr [])])
    (by decide) (by decide) rfl

/-! ### C9 — payload without a status key -/

/-- C9 confirmed: on a payload object with no `status` key, `update_workflow`
raises `KeyError` at the very first line, before the file write, so the whole
state — the persisted snapshot files and the in-memory map — is exactly as
before the call. -/
theorem c9_missing_status_raises (s : DashState) (wid : String)
    (fields : List (String × Json)) (now : Int)
    (h : lookupEntry fields "status" = none) :
    update_workflow s wid (Json.obj fields) now = (s, some "KeyError") := by
  unfold update_workflow
  show (match Json.getKey (Json.obj fields) "status" with
    | none => (s, some "KeyError")
    | some _ =>
      (⟨setEntry s.files wid (FileContent.valid (applyTimestamps (Json.obj fields) now)),
        s.workflows⟩, none)) = (s, some "KeyError")
  rw [show Json.getKey (Json.obj fields) "status" = lookupEntry fields "status" from rfl, h]

/-- C9 witness: a concrete stored snapshot survives an update whose payload
lacks `status`. -/
theorem c9_missing_status_raises_witness :
    update_workflow ⟨[("wf1", FileContent.valid Json.null)], []⟩ "wf1"
      (Json.obj [("name", Json.str "w")]) 3 =
      (⟨[("wf1", FileContent.valid Json.null)], []⟩, some "KeyError") :=
  c9_missing_status_raises ⟨[("wf1", FileContent.valid Json.null)], []⟩ "wf1"
    [("name", Json.str "w")] 3 rfl

/-! ### C10 — statuses outside the server palette -/

/-- C10 confirmed: `update_dag` colors a task whose status is none of the five
palette keys with the default `gray` (Python `dict.get` with default), not a
lookup failure. -/
theorem c10_unlisted_status_gray (status : String)
    (h1 : status ≠ "waiting") (h2 : status ≠ "running") (h3 : status ≠ "completed")
    (h4 : status ≠ "failed") (h5 : status ≠ "unknown") :
    update_dag_color status = "gray" := by
  simp [update_dag_color, dict_get, server_color_map, lookupEntry,
    Ne.symm h1, Ne.symm h2, Ne.symm h3, Ne.symm h4, Ne.symm h5]

/-- C10 witness: the status `"banana"` is outside the palette and colors gray. -/
theorem c10_unlisted_status_gray_witness : update_dag_color "banana" = "gray" :=
  c10_unlisted_status_gray "banana" (by decide) (by decide) (by decide) (by decide)
    (by decide)
